/-
  Verification of the GetStashed bulk-link-generator front-end
  (src/src/GetstashedFrontend.js) against its natural-language
  specification.

  The component is shallowly embedded:
  * JavaScript numbers are IEEE-754 binary64 values, modelled as the
    dyadic rationals they denote; every arithmetic step that rounds in
    JavaScript is modelled by an explicit round-to-nearest-even
    function `roundDouble` on ℚ.
  * JavaScript BigInt values are modelled as ℤ.
  * Possibly-absent JavaScript values (undefined / null) are modelled
    as `Option`; JavaScript truthiness of strings is modelled
    explicitly (the empty string is falsy).
  * Code that can throw is modelled in `Except JsError`.
-/
import Mathlib

/-- Errors a JavaScript evaluation can raise in the modelled fragment. -/
inductive JsError where
  | typeError
  | referenceError
deriving DecidableEq

/-! ## IEEE-754 binary64 arithmetic, modelled on ℚ -/

/-- Fuel-driven ⌊log₂ n⌋ on naturals (0 for n ≤ 1).  Structural recursion on
the fuel keeps it kernel-reducible. -/
def log2Fuel : Nat → Nat → Nat
  | 0, _ => 0
  | f + 1, n => if 2 ≤ n then log2Fuel f (n / 2) + 1 else 0

/-- Fuel-driven ⌈log₂ n⌉ on naturals (0 for n ≤ 1). -/
def clog2Fuel : Nat → Nat → Nat
  | 0, _ => 0
  | f + 1, n => if 2 ≤ n then clog2Fuel f ((n + 1) / 2) + 1 else 0

/-- Floor of a rational, computed directly by flooring integer division. -/
def ratFloor (q : ℚ) : ℤ := Int.fdiv q.num q.den

/-- Ceiling of a rational. -/
def ratCeil (q : ℚ) : ℤ := -ratFloor (-q)

/-- Round a rational to the nearest integer, ties to even. -/
def rhe (x : ℚ) : ℤ :=
  let f := ratFloor x
  let r := x - (f : ℚ)
  if r < 1 / 2 then f
  else if 1 / 2 < r then f + 1
  else if f % 2 = 0 then f else f + 1

/-- ⌊log₂ q⌋ for a positive rational. -/
def floorLog2 (q : ℚ) : ℤ :=
  if 1 ≤ q then (log2Fuel 1100 (ratFloor q).toNat : ℤ)
  else -(clog2Fuel 1100 (ratCeil q⁻¹).toNat : ℤ)

/-- Round a real (rational) value to the nearest IEEE-754 binary64 value
(53-bit significand, round half to even), as the rational it denotes.
Exponent-range overflow and subnormals do not occur at the magnitudes this
component manipulates and are not modelled. -/
def roundDouble (q : ℚ) : ℚ :=
  if q = 0 then 0
  else
    let a : ℚ := |q|
    let e : ℤ := floorLog2 a - 52
    let m : ℤ := rhe (a * (2 : ℚ) ^ (-e))
    (if q < 0 then (-m : ℚ) else (m : ℚ)) * (2 : ℚ) ^ e

/-! ## Module-scope constants (GetstashedFrontend.js lines 8-10) -/

/-- ONE_SUI = BigInt(1000000000). -/
def ONE_SUI : ℤ := 1000000000

/-- MAX_LINKS = 100. -/
def MAX_LINKS : ℤ := 100

/-- MIN_AMOUNT = 0.1: the binary64 value denoted by the literal 0.1. -/
def MIN_AMOUNT : ℚ := roundDouble (1 / 10)

/-- convertSUIToMist (lines 88-90):
BigInt(Math.floor(suiAmount * Number(ONE_SUI))).  The multiplication happens
in binary64, so it is an exact rational product rounded by `roundDouble`;
Math.floor and the BigInt conversion are exact. -/
def convertSUIToMist (suiAmount : ℚ) : ℤ :=
  ratFloor (roundDouble (suiAmount * 1000000000))

/-! ## Form-state handlers (lines 43-51)

An input event carries `e.target.value`; the handlers first run
parseInt / parseFloat on it.  We model the handler input as the parse
result: `none` for NaN (non-numeric input), `some v` for the parsed
numeric value.  `x || d` in JavaScript yields `d` when `x` is falsy,
i.e. when `x` is NaN or 0. -/

/-- handleNumLinksChange: `const value = parseInt(e.target.value) || 1;
setNumLinks(Math.min(Math.max(1, value), MAX_LINKS));` -/
def handleNumLinksChange (v : Option ℤ) : ℤ :=
  let value : ℤ := match v with
    | none => 1
    | some n => if n = 0 then 1 else n
  min (max 1 value) MAX_LINKS

/-- handleAmountChange: `const value = parseFloat(e.target.value) || MIN_AMOUNT;
setAmountPerLink(Math.max(MIN_AMOUNT, value));` -/
def handleAmountChange (v : Option ℚ) : ℚ :=
  let value : ℚ := match v with
    | none => MIN_AMOUNT
    | some q => if q = 0 then MIN_AMOUNT else q
  max MIN_AMOUNT value

/-! ## String helpers modelling JavaScript string operations -/

/-- listHasPre p l: p is a leading segment of l (character lists). -/
def listHasPre : List Char → List Char → Bool
  | [], _ => true
  | _ :: _, [] => false
  | a :: p, b :: l => a = b && listHasPre p l

/-- listHasSub p l: p occurs contiguously somewhere in l. -/
def listHasSub : List Char → List Char → Bool
  | p, [] => p.isEmpty
  | p, c :: t => listHasPre p (c :: t) || listHasSub p t

/-- Models JavaScript String.prototype.includes: pat occurs in s. -/
def strIncludes (s pat : String) : Bool :=
  listHasSub pat.toList s.toList

/-- Replace the first occurrence of pat in a character list. -/
def replaceFirstAux (pat repl : List Char) : List Char → List Char
  | [] => []
  | c :: t =>
    if listHasPre pat (c :: t) then repl ++ (c :: t).drop pat.length
    else c :: replaceFirstAux pat repl t

/-- Models JavaScript String.prototype.replace with a string pattern: only
the first occurrence is replaced. -/
def replaceFirst (s pat repl : String) : String :=
  ⟨replaceFirstAux pat.toList repl.toList s.toList⟩

/-- JavaScript truthiness of a string-or-undefined value: undefined and the
empty string are falsy. -/
def strTruthy : Option String → Bool
  | some s => !(s == "")
  | none => false

/-- Models `a || b` on string-or-undefined values. -/
def jsOrStr (a b : Option String) : Option String :=
  if strTruthy a then a else b

/-! ## Transaction-result model (lines 61-82)

The shapes the extractor reads: result (possibly null/undefined), its
`effects`, the `created` array and the `events` array.  Array elements may
themselves be null/undefined (outer `Option` in the element type), which
matters because the callbacks passed to `.map` and `.filter` access fields
on the elements without optional chaining. -/

/-- An entry of `event.newObject`. -/
structure NewObj where
  objectId : Option String
deriving DecidableEq

/-- An entry of `event.moveEvent`. -/
structure MoveEv where
  type : Option String
deriving DecidableEq

/-- An element of `effects.events`. -/
structure TxEvent where
  type : Option String
  newObject : Option NewObj
  moveEvent : Option MoveEv
  objectId : Option String
deriving DecidableEq

/-- An element of `effects.created`. -/
structure CreatedObj where
  objectId : Option String
deriving DecidableEq

/-- The `effects` field of a transaction result. -/
structure TxEffects where
  created : Option (List (Option CreatedObj))
  events : Option (List (Option TxEvent))
deriving DecidableEq

/-- A transaction result as passed to the onSuccess callback. -/
structure TxResult where
  effects : Option TxEffects
deriving DecidableEq

/-- The `result?.effects?.created` access chain. -/
def createdField (result : Option TxResult) : Option (List (Option CreatedObj)) :=
  (result.bind TxResult.effects).bind TxEffects.created

/-- The `result?.effects?.events` access chain. -/
def eventsField (result : Option TxResult) : Option (List (Option TxEvent)) :=
  (result.bind TxResult.effects).bind TxEffects.events

/-- The value of `result?.effects?.created?.length` with undefined read as 0,
so that `result?.effects?.created?.length > 0` is `0 < createdLenJS result`
(in JavaScript `undefined > 0` is false). -/
def createdLenJS (result : Option TxResult) : Nat :=
  ((createdField result).map List.length).getD 0

/-- The filter predicate on events (lines 70-72):
`event.type === "created" || event.newObject ||
 event.moveEvent?.type?.includes("Created")`. -/
def eventMatches (ev : TxEvent) : Bool :=
  (ev.type == some "created") || ev.newObject.isSome ||
    (((ev.moveEvent.bind MoveEv.type).map (fun t => strIncludes t "Created")).getD false)

/-- Apply f to every element of a JavaScript array whose elements may be
null/undefined; accessing a field of a null element throws a TypeError, which
is what the source's `.map` / `.filter` callbacks do on such elements. -/
def mapOrThrow (f : α → β) : List (Option α) → Except JsError (List β)
  | [] => Except.ok []
  | some a :: t =>
    match mapOrThrow f t with
    | Except.ok l => Except.ok (f a :: l)
    | Except.error e => Except.error e
  | none :: _ => Except.error JsError.typeError

/-- extractObjectIdsFromResult (lines 61-82).  Returns the list of ids: an
entry is `none` when the corresponding JavaScript array entry is undefined
(a created object without an objectId field). -/
def extractObjectIdsFromResult (result : Option TxResult) :
    Except JsError (List (Option String)) :=
  if 0 < createdLenJS result then
    mapOrThrow CreatedObj.objectId ((createdField result).getD [])
  else
    match eventsField result with
    | none => Except.ok []
    | some evs =>
      match mapOrThrow (fun e => e) evs with
      | Except.error e => Except.error e
      | Except.ok evs2 =>
        Except.ok
          (((evs2.filter eventMatches).map
              (fun ev => jsOrStr ev.objectId (ev.newObject.bind NewObj.objectId))).filter
            strTruthy)

/-- The event-based fallback extractor (lines 68-81) considered on its own:
what extractObjectIdsFromResult computes when the `created` list is absent
or empty. -/
def eventsFallback (result : Option TxResult) :
    Except JsError (List (Option String)) :=
  match eventsField result with
  | none => Except.ok []
  | some evs =>
    match mapOrThrow (fun e => e) evs with
    | Except.error e => Except.error e
    | Except.ok evs2 =>
      Except.ok
        (((evs2.filter eventMatches).map
            (fun ev => jsOrStr ev.objectId (ev.newObject.bind NewObj.objectId))).filter
          strTruthy)

/-- Input space on which the extractor is defensive: whenever the `created`
and `events` arrays are present, their elements are actual objects (possibly
with every sub-field missing), not null/undefined. -/
def elemsNonNull (result : Option TxResult) : Bool :=
  ((createdField result).getD []).all Option.isSome &&
    ((eventsField result).getD []).all Option.isSome

/-- No event of the result satisfies the fallback filter predicate (and no
event entry is null). -/
def noMatchingEvents (result : Option TxResult) : Bool :=
  ((eventsField result).getD []).all fun o =>
    match o with
    | some ev => !eventMatches ev
    | none => false

/-! ## Component state and the createLinks orchestrator (lines 12-19, 92-157) -/

/-- The useState-backed component state (lines 13-19). -/
structure ComponentState where
  numLinks : ℤ
  amountPerLink : ℚ
  generatedLinks : List String
  trackedObjectIds : List (Option String)
  isLoading : Bool
  error : String
  balanceInMist : ℤ
deriving DecidableEq

/-- The initial component state: useState(1), useState(MIN_AMOUNT),
useState([]), useState([]), useState(false), useState(""),
useState(BigInt(0)).  In particular the balance starts as the BigInt 0,
not null or undefined. -/
def initialState : ComponentState :=
  { numLinks := 1
    amountPerLink := MIN_AMOUNT
    generatedLinks := []
    trackedObjectIds := []
    isLoading := false
    error := ""
    balanceInMist := 0 }

/-- One link-creation request: a ZkSendLinkBuilder carrying the claimable
mist amount passed to addClaimableMist, plus the URL its getLink() will
later render (the SDK's URL generation is not modelled, so the URLs are supplied
by a parameter `urlOf`). -/
structure LinkReq where
  mist : ℤ
  url : String
deriving DecidableEq

/-- createLinks up to the point of submission (lines 92-120): the account
guard, the integer-arithmetic balance guard and the construction of one
request per link.  Returns the updated state and, when submission proceeds,
the list of built requests (`none` = blocked, nothing submitted). -/
def createLinks (urlOf : ℕ → String) (account : Option String)
    (s : ComponentState) : ComponentState × Option (List LinkReq) :=
  match account with
  | none => ({ s with error := "Please connect your wallet first." }, none)
  | some _ =>
    let amountInMist : ℤ := convertSUIToMist s.amountPerLink
    let linksCount : ℤ := min s.numLinks MAX_LINKS
    let totalMistNeeded : ℤ := amountInMist * linksCount
    if s.balanceInMist < totalMistNeeded then
      ({ s with error := "Insufficient balance for the requested operation." }, none)
    else
      let links : List LinkReq :=
        (List.range s.numLinks.toNat).map fun i =>
          { mist := amountInMist, url := urlOf i }
      ({ s with isLoading := true, error := "" }, some links)

/-- A JavaScript numeric value: a BigInt or a binary64 number. -/
inductive JsVal where
  | bigint (z : ℤ)
  | num (q : ℚ)
deriving DecidableEq

/-- JavaScript multiplication: BigInt×BigInt is exact, Number×Number rounds,
mixing BigInt and Number throws a TypeError. -/
def jsMulVal : JsVal → JsVal → Except JsError JsVal
  | JsVal.bigint x, JsVal.bigint y => Except.ok (JsVal.bigint (x * y))
  | JsVal.num x, JsVal.num y => Except.ok (JsVal.num (roundDouble (x * y)))
  | _, _ => Except.error JsError.typeError

/-- JavaScript `<`: never throws on numeric values; BigInt and Number may be
compared with each other, mathematically. -/
def jsLtVal : JsVal → JsVal → Except JsError Bool
  | JsVal.bigint x, JsVal.bigint y => Except.ok (decide (x < y))
  | JsVal.num x, JsVal.num y => Except.ok (decide (x < y))
  | JsVal.bigint x, JsVal.num y => Except.ok (decide ((x : ℚ) < y))
  | JsVal.num x, JsVal.bigint y => Except.ok (decide (x < (y : ℚ)))

/-- The dynamic evaluation of the balance guard (lines 100-102):
`balanceInMist < amountInMist * linksCount`, all three values BigInts in
this file. -/
def guardExprMain (balance amountInMist linksCount : ℤ) : Except JsError Bool :=
  match jsMulVal (JsVal.bigint amountInMist) (JsVal.bigint linksCount) with
  | Except.error e => Except.error e
  | Except.ok t => jsLtVal (JsVal.bigint balance) t

/-! ## Scopes and the onSuccess callback (lines 25-41, 126-144)

`fetchBalance` is declared as a `const` inside the callback passed to
useEffect (lines 26-38).  The call `fetchBalance()` on line 143 sits inside
the onSuccess callback, whose scope chain goes through createLinks and the
component body to the module scope — it does not include the useEffect
callback's scope.  The name lists below are read off the source
declarations visible at each level. -/

/-- Names bound at module scope of GetstashedFrontend.js. -/
def moduleScopeNames : List String :=
  ["React", "useState", "useEffect", "ZkSendLinkBuilder", "SuiClient",
   "getFullnodeUrl", "ConnectButton", "useCurrentAccount",
   "useSignAndExecuteTransaction", "Download", "Clipboard", "ExternalLink",
   "ONE_SUI", "MAX_LINKS", "MIN_AMOUNT", "GetstashedFrontend"]

/-- Names bound in the component function body (lines 13-176). -/
def componentScopeNames : List String :=
  ["numLinks", "setNumLinks", "amountPerLink", "setAmountPerLink",
   "generatedLinks", "setGeneratedLinks", "trackedObjectIds",
   "setTrackedObjectIds", "isLoading", "setIsLoading", "error", "setError",
   "balanceInMist", "setBalanceInMist", "currentAccount",
   "signAndExecuteTransaction", "client", "handleNumLinksChange",
   "handleAmountChange", "copyToClipboard", "extractObjectIdsFromResult",
   "formatBalanceInSUI", "convertSUIToMist", "createLinks",
   "downloadLinksAndObjects"]

/-- Names bound in the body of createLinks (lines 92-157). -/
def createLinksScopeNames : List String :=
  ["amountInMist", "linksCount", "totalMistNeeded", "links", "txBlock"]

/-- Names bound in the onSuccess callback itself (lines 126-144). -/
def onSuccessScopeNames : List String :=
  ["result", "objectIds"]

/-- Names bound inside the useEffect callback (lines 25-41); this scope
does NOT enclose createLinks. -/
def useEffectCallbackScopeNames : List String :=
  ["fetchBalance"]

/-- The full scope chain visible at the `fetchBalance()` call on line 143. -/
def onSuccessScopeChain : List String :=
  onSuccessScopeNames ++ createLinksScopeNames ++ componentScopeNames ++
    moduleScopeNames

/-- Resolving an identifier against a scope chain. -/
def lookupInScope (chain : List String) (n : String) : Bool :=
  chain.contains n

/-- What the onSuccess callback did: console.warn issued, the two setState
calls, whether error state was touched, whether a balance refetch happened,
and a JavaScript error escaping the callback, if any. -/
structure OnSuccessTrace where
  warned : Bool
  newTracked : List (Option String)
  newLinks : List String
  errorAfter : String
  refreshed : Bool
  thrown : Option JsError
deriving DecidableEq

/-- The display URL of a built link (lines 137-139):
`link.getLink().replace("zksend.com", "getstashed.com")`. -/
def displayLinksOf (reqs : List LinkReq) : List String :=
  reqs.map fun l => replaceFirst l.url "zksend.com" "getstashed.com"

/-- The onSuccess callback (lines 126-144): extract ids (may throw), warn
when none were found, set trackedObjectIds, set generatedLinks, then call
fetchBalance() — a name resolved against the scope chain of the call site.
An extraction error aborts the callback before any state is set. -/
def onSuccessMain (reqs : List LinkReq) (errBefore : String)
    (result : Option TxResult) : Except JsError OnSuccessTrace :=
  match extractObjectIdsFromResult result with
  | Except.error e => Except.error e
  | Except.ok ids =>
    Except.ok
      { warned := ids.isEmpty
        newTracked := ids
        newLinks := displayLinksOf reqs
        errorAfter := errBefore
        refreshed := lookupInScope onSuccessScopeChain "fetchBalance"
        thrown :=
          if lookupInScope onSuccessScopeChain "fetchBalance" then none
          else some JsError.referenceError }

/-! ## Result presentation and download (lines 159-176, 266) -/

/-- How an id is rendered next to a link: `trackedObjectIds[index] || "N/A"`.
Out-of-range indexing yields undefined; an undefined or empty-string entry is
falsy, so both render as "N/A". -/
def renderId (ids : List (Option String)) (i : ℕ) : String :=
  match ids.getD i none with
  | some s => if s == "" then "N/A" else s
  | none => "N/A"

/-- JavaScript Array.prototype.map with the element index, counting from k. -/
def jsMapIndexed (f : ℕ → α → β) : ℕ → List α → List β
  | _, [] => []
  | k, a :: t => f k a :: jsMapIndexed f (k + 1) t

/-- One line of the download payload (lines 161-163). -/
def downloadLine (ids : List (Option String)) (i : ℕ) (link : String) : String :=
  "Link: " ++ link ++ "\nObject ID: " ++ renderId ids i ++ "\n"

/-- The download payload (lines 160-164): the per-link lines joined
with a newline. -/
def downloadData (links : List String) (ids : List (Option String)) : String :=
  String.intercalate "\n" (jsMapIndexed (downloadLine ids) 0 links)

/-- The download file name (line 171): the prefix getstashed_links_, then
the date part of new Date().toISOString() — everything before the letter T —
then the .txt suffix. -/
def mkDownloadName (isoNow : String) : String :=
  "getstashed_links_" ++ ((isoNow.splitOn "T").headD "") ++ ".txt"


/-! ## Helper lemmas -/

theorem mapOrThrow_map_some (f : α → β) :
    ∀ objs : List α, mapOrThrow f (objs.map some) = Except.ok (objs.map f) := by
  intro objs
  induction objs with
  | nil => rfl
  | cons a t ih => simp [mapOrThrow, ih]

theorem mapOrThrow_ok_of_all_isSome (f : α → β) :
    ∀ l : List (Option α), l.all Option.isSome = true →
      ∃ l2, mapOrThrow f l = Except.ok l2 := by
  intro l
  induction l with
  | nil => exact fun _ => ⟨[], rfl⟩
  | cons o t ih =>
    intro h
    simp only [List.all_cons, Bool.and_eq_true] at h
    obtain ⟨ho, ht⟩ := h
    obtain ⟨l2, hl2⟩ := ih ht
    cases o with
    | none => simp [Option.isSome] at ho
    | some a => exact ⟨f a :: l2, by simp [mapOrThrow, hl2]⟩

theorem mapOrThrow_id_noMatch :
    ∀ l : List (Option TxEvent),
      (l.all fun o =>
        match o with
        | some ev => !eventMatches ev
        | none => false) = true →
      ∃ l2, mapOrThrow (fun e => e) l = Except.ok l2 ∧ l2.filter eventMatches = [] := by
  intro l
  induction l with
  | nil => exact fun _ => ⟨[], rfl, rfl⟩
  | cons o t ih =>
    intro h
    simp only [List.all_cons, Bool.and_eq_true] at h
    obtain ⟨ho, ht⟩ := h
    obtain ⟨l2, hl2, hf⟩ := ih ht
    cases o with
    | none => simp at ho
    | some ev =>
      refine ⟨ev :: l2, by simp [mapOrThrow, hl2], ?_⟩
      simp only [Bool.not_eq_true'] at ho
      simp [List.filter, ho, hf]

theorem listHasPre_self_append :
    ∀ p suf : List Char, listHasPre p (p ++ suf) = true := by
  intro p suf
  induction p with
  | nil => rfl
  | cons c t ih => simp [listHasPre, ih]

theorem listHasSub_self_append :
    ∀ p suf : List Char, listHasSub p (p ++ suf) = true := by
  intro p suf
  cases p with
  | nil =>
    cases suf with
    | nil => rfl
    | cons c t => simp [listHasSub, listHasPre]
  | cons c t =>
    simp [listHasSub, listHasPre, listHasPre_self_append t suf]

theorem listHasSub_mid :
    ∀ pre p suf : List Char, listHasSub p (pre ++ (p ++ suf)) = true := by
  intro pre p suf
  induction pre with
  | nil => simpa using listHasSub_self_append p suf
  | cons c pre2 ih =>
    simp only [List.cons_append, listHasSub, List.append_eq, ih, Bool.or_true]

theorem jsMapIndexed_eq_range_map (f : ℕ → α → β) (d : α) :
    ∀ (l : List α) (k : ℕ),
      jsMapIndexed f k l =
        (List.range l.length).map (fun i => f (k + i) (l.getD i d)) := by
  intro l
  induction l with
  | nil => intro k; rfl
  | cons a t ih =>
    intro k
    have hr : (List.range (a :: t).length).map (fun i => f (k + i) ((a :: t).getD i d))
        = f (k + 0) ((a :: t).getD 0 d) ::
          (List.range t.length).map
            ((fun i => f (k + i) ((a :: t).getD i d)) ∘ Nat.succ) := by
      rw [List.length_cons, List.range_succ_eq_map, List.map_cons, List.map_map]
    rw [hr]
    show f k a :: jsMapIndexed f (k + 1) t = _
    congr 1
    rw [ih (k + 1)]
    refine List.map_congr_left ?_
    intro i _
    show f (k + 1 + i) (t.getD i d) = f (k + Nat.succ i) ((a :: t).getD (Nat.succ i) d)
    rw [List.getD_cons_succ]
    congr 1
    omega

set_option maxRecDepth 100000

/-! ## Claim theorems -/

/-- C5: for every link-count input event, the stored link count afterwards
lies in [1,100]; inputs above 100 store 100, inputs below 1 store 1, and
non-numeric input stores 1. -/
theorem handleNumLinksChange_clamps :
    ∀ v : Option ℤ,
      (1 ≤ handleNumLinksChange v ∧ handleNumLinksChange v ≤ 100)
      ∧ (∀ n, v = some n → 100 < n → handleNumLinksChange v = 100)
      ∧ (∀ n, v = some n → n < 1 → handleNumLinksChange v = 1)
      ∧ (v = none → handleNumLinksChange v = 1) := by
  intro v
  cases v with
  | none =>
    refine ⟨⟨?_, ?_⟩, ?_, ?_, ?_⟩ <;> simp [handleNumLinksChange, MAX_LINKS]
  | some n =>
    refine ⟨⟨?_, ?_⟩, ?_, ?_, ?_⟩
    · simp only [handleNumLinksChange, MAX_LINKS]; split <;> omega
    · simp only [handleNumLinksChange, MAX_LINKS]; split <;> omega
    · intro m hm h
      injection hm with hm
      subst hm
      simp only [handleNumLinksChange, MAX_LINKS]; split <;> omega
    · intro m hm h
      injection hm with hm
      subst hm
      simp only [handleNumLinksChange, MAX_LINKS]; split <;> omega
    · intro h; cases h

/-- C5 witness: concrete evaluations of the clamp. -/
theorem handleNumLinksChange_clamps_witness :
    handleNumLinksChange (some 150) = 100
    ∧ handleNumLinksChange (some (-7)) = 1
    ∧ handleNumLinksChange none = 1 :=
  ⟨(handleNumLinksChange_clamps (some 150)).2.1 150 rfl (by decide),
   (handleNumLinksChange_clamps (some (-7))).2.2.1 (-7) rfl (by decide),
   (handleNumLinksChange_clamps none).2.2.2 rfl⟩

/-- C6: for every amount input event, non-numeric input or input below the
minimum stores the minimum (0.1, as a binary64 value), any other input is
stored unchanged, and the stored amount is always at least the (positive)
minimum. -/
theorem handleAmountChange_clamps :
    0 < MIN_AMOUNT
    ∧ ∀ v : Option ℚ,
        MIN_AMOUNT ≤ handleAmountChange v
        ∧ (v = none → handleAmountChange v = MIN_AMOUNT)
        ∧ (∀ q, v = some q → q < MIN_AMOUNT → handleAmountChange v = MIN_AMOUNT)
        ∧ (∀ q, v = some q → MIN_AMOUNT ≤ q → handleAmountChange v = q) := by
  constructor
  · with_unfolding_all decide
  intro v
  refine ⟨?_, ?_, ?_, ?_⟩
  · exact le_max_left _ _
  · intro h; subst h; simp [handleAmountChange]
  · intro q hq hlt
    subst hq
    simp only [handleAmountChange]
    by_cases h0 : q = 0
    · simp [h0]
    · simp only [if_neg h0]
      exact max_eq_left hlt.le
  · intro q hq hle
    subst hq
    simp only [handleAmountChange]
    have h0 : ¬q = 0 := by
      intro h
      rw [h] at hle
      exact absurd hle (by with_unfolding_all decide)
    simp only [if_neg h0]
    exact max_eq_right hle

/-- C6 witness: concrete evaluations of the amount clamp. -/
theorem handleAmountChange_clamps_witness :
    handleAmountChange none = MIN_AMOUNT
    ∧ handleAmountChange (some (1 / 100)) = MIN_AMOUNT
    ∧ handleAmountChange (some 5) = 5 :=
  ⟨(handleAmountChange_clamps.2 none).2.1 rfl,
   (handleAmountChange_clamps.2 (some (1 / 100))).2.2.1 (1 / 100) rfl
     (by with_unfolding_all decide),
   (handleAmountChange_clamps.2 (some 5)).2.2.2 5 rfl
     (by with_unfolding_all decide)⟩

/-- C1 counterexample: for the amount input 8.2 (the binary64 value nearest
41/5, as produced by parseFloat and stored unchanged by handleAmountChange),
the per-link amount in mist is 8199999999, not the exact 8200000000 the
claim asserts: the binary64 product 8.2 × 10⁹ rounds to
8199999999.99999904632568359375 and Math.floor truncates it. -/
theorem convertSUIToMist_lossy_at_82 :
    convertSUIToMist (handleAmountChange (some (roundDouble (41 / 5)))) = 8199999999
    ∧ convertSUIToMist (handleAmountChange (some (roundDouble (41 / 5)))) ≠ 8200000000 := by
  with_unfolding_all decide

/-- C1 (amended): whenever createLinks proceeds to submission, every built
request carries convertSUIToMist(amountPerLink) mist — the floor of the
binary64 product amount × 10⁹, which can differ from the exact product —
and the total charged against the balance is that per-link amount times the
clamped link count. -/
theorem createLinks_required_total :
    (∀ (urlOf : ℕ → String) (a : String) (s : ComponentState) (reqs : List LinkReq),
        (createLinks urlOf (some a) s).2 = some reqs →
          reqs.map LinkReq.mist =
            List.replicate s.numLinks.toNat (convertSUIToMist s.amountPerLink)
          ∧ convertSUIToMist s.amountPerLink * min s.numLinks MAX_LINKS ≤ s.balanceInMist)
    ∧ convertSUIToMist (roundDouble (41 / 5)) = 8199999999 := by
  constructor
  · intro urlOf a s reqs h
    simp only [createLinks] at h
    split at h
    · simp at h
    · simp only [Option.some.injEq] at h
      subst h
      refine ⟨?_, le_of_not_lt (by assumption)⟩
      have hc : (LinkReq.mist ∘ fun i =>
          ({ mist := convertSUIToMist s.amountPerLink, url := urlOf i } : LinkReq))
          = fun _ => convertSUIToMist s.amountPerLink := rfl
      rw [List.map_map, hc, List.map_const', List.length_range]
  · with_unfolding_all decide

/-- C1 witness: a concrete passing submission of two links of 1 SUI each. -/
theorem createLinks_required_total_witness :
    ([{ mist := 1000000000, url := "https://zksend.com/u" },
      { mist := 1000000000, url := "https://zksend.com/u" }] : List LinkReq).map LinkReq.mist
        = List.replicate (2 : ℤ).toNat (convertSUIToMist 1)
    ∧ convertSUIToMist 1 * min (2 : ℤ) MAX_LINKS ≤ (10000000000 : ℤ) :=
  createLinks_required_total.1 (fun _ => "https://zksend.com/u") "0xabc"
    { numLinks := 2, amountPerLink := 1, generatedLinks := [],
      trackedObjectIds := [], isLoading := false, error := "",
      balanceInMist := 10000000000 }
    [{ mist := 1000000000, url := "https://zksend.com/u" },
     { mist := 1000000000, url := "https://zksend.com/u" }]
    (by
      simp only [createLinks]
      rw [if_neg (by with_unfolding_all decide)]
      show some ((List.range (2 : ℤ).toNat).map fun i =>
        ({ mist := convertSUIToMist 1, url := "https://zksend.com/u" } : LinkReq)) = _
      have hm : convertSUIToMist 1 = 1000000000 := by with_unfolding_all decide
      rw [hm]
      rfl)

/-- C4: with a connected account, whenever the required total (per-link mist
times clamped link count) exceeds the balance, createLinks sets the
insufficient-balance message and submits nothing; the guard expression
compares BigInts and never throws, and the not-yet-fetched balance is the
BigInt 0, not null. -/
theorem createLinks_blocks_insufficient :
    (∀ (urlOf : ℕ → String) (a : String) (s : ComponentState),
        s.balanceInMist < convertSUIToMist s.amountPerLink * min s.numLinks MAX_LINKS →
          createLinks urlOf (some a) s
            = ({ s with error := "Insufficient balance for the requested operation." },
               none))
    ∧ (∀ b x l : ℤ, guardExprMain b x l = Except.ok (decide (b < x * l)))
    ∧ initialState.balanceInMist = 0 := by
  refine ⟨?_, ?_, rfl⟩
  · intro urlOf a s h
    simp only [createLinks]
    rw [if_pos h]
  · intro b x l
    rfl

/-- C4 witness: in the initial state (balance still the default BigInt 0)
a submission of one minimum-amount link is blocked with the
insufficient-balance message. -/
theorem createLinks_blocks_insufficient_witness :
    createLinks (fun _ => "u") (some "0xabc") initialState
      = ({ initialState with
            error := "Insufficient balance for the requested operation." }, none)
    ∧ guardExprMain 0 100000000 1 = Except.ok (decide ((0 : ℤ) < 100000000 * 1))
    ∧ initialState.balanceInMist = 0 :=
  ⟨createLinks_blocks_insufficient.1 (fun _ => "u") "0xabc" initialState
      (by with_unfolding_all decide),
   createLinks_blocks_insufficient.2.1 0 100000000 1,
   createLinks_blocks_insufficient.2.2⟩

/-- C2: when the result carries a non-empty created list, extraction returns
exactly those objects' ids, in order, ignoring events entirely; when the
created list is absent or empty the result is exactly what the event-based
fallback extractor yields. -/
theorem extract_created_priority :
    (∀ (r : Option TxResult) (objs : List CreatedObj),
        createdField r = some (objs.map some) → objs ≠ [] →
        extractObjectIdsFromResult r = Except.ok (objs.map CreatedObj.objectId))
    ∧ (∀ r : Option TxResult, createdLenJS r = 0 →
        extractObjectIdsFromResult r = eventsFallback r) := by
  constructor
  · intro r objs hc hne
    have hlen : 0 < createdLenJS r := by
      simp only [createdLenJS, hc, Option.map_some', Option.getD_some, List.length_map]
      exact List.length_pos.mpr hne
    simp only [extractObjectIdsFromResult, if_pos hlen, hc, Option.getD_some]
    exact mapOrThrow_map_some _ objs
  · intro r h
    simp only [extractObjectIdsFromResult, eventsFallback]
    rw [if_neg (by omega)]

/-- C2 witness: a result with two created entries (the second lacking an
objectId) and a matching event; the event contributes nothing, and a result
with an empty created list falls back to the event extractor. -/
theorem extract_created_priority_witness :
    extractObjectIdsFromResult
        (some ⟨some ⟨some [some ⟨some "0xa"⟩, some ⟨none⟩],
                     some [some ⟨some "created", none, none, some "0xev"⟩]⟩⟩)
      = Except.ok ([(⟨some "0xa"⟩ : CreatedObj), ⟨none⟩].map CreatedObj.objectId)
    ∧ extractObjectIdsFromResult
        (some ⟨some ⟨some [], some [some ⟨some "created", none, none, some "0xev"⟩]⟩⟩)
      = eventsFallback
          (some ⟨some ⟨some [], some [some ⟨some "created", none, none, some "0xev"⟩]⟩⟩) :=
  ⟨extract_created_priority.1 _ [⟨some "0xa"⟩, ⟨none⟩] rfl (by simp),
   extract_created_priority.2 _ rfl⟩

/-- C7: when the created list is absent or empty and no event matches the
fallback filter, the onSuccess callback extracts an empty id list, issues
the warning, still sets the generated links, and leaves the error state
untouched. -/
theorem onSuccess_empty_extraction_continues :
    ∀ (reqs : List LinkReq) (errBefore : String) (r : Option TxResult),
      createdLenJS r = 0 → noMatchingEvents r = true →
      onSuccessMain reqs errBefore r
        = Except.ok
            { warned := true, newTracked := [], newLinks := displayLinksOf reqs,
              errorAfter := errBefore, refreshed := false,
              thrown := some JsError.referenceError } := by
  intro reqs errBefore r hc hm
  have hlk : lookupInScope onSuccessScopeChain "fetchBalance" = false := by decide
  have hex : extractObjectIdsFromResult r = Except.ok [] := by
    simp only [extractObjectIdsFromResult]
    rw [if_neg (by omega)]
    cases hev : eventsField r with
    | none => rfl
    | some evs =>
      have hall : (evs.all fun o =>
          match o with
          | some ev => !eventMatches ev
          | none => false) = true := by
        simpa [noMatchingEvents, hev] using hm
      obtain ⟨l2, hl2, hfil⟩ := mapOrThrow_id_noMatch evs hall
      simp only [hl2, hfil, List.map_nil, List.filter_nil]
  simp [onSuccessMain, hex, hlk]

/-- C7 witness: a result with an empty created list and one event matching
nothing. -/
theorem onSuccess_empty_extraction_continues_witness :
    onSuccessMain [] ""
        (some ⟨some ⟨some [], some [some ⟨some "transfer", none, none, some "0x9"⟩]⟩⟩)
      = Except.ok
          { warned := true, newTracked := [], newLinks := [],
            errorAfter := "", refreshed := false,
            thrown := some JsError.referenceError } :=
  onSuccess_empty_extraction_continues [] "" _ rfl rfl

/-- C9 counterexample: the extractor is not total on all inputs — when the
created array contains a null entry, the mapping callback reads .objectId
off null and a TypeError is thrown. -/
theorem extract_throws_on_null_element :
    extractObjectIdsFromResult (some ⟨some ⟨some [none], none⟩⟩)
      = Except.error JsError.typeError := rfl

/-- C9 (amended): the extractor never throws and returns a (possibly empty)
id list on every input whose created/events arrays, when present, contain
only objects — including a null/undefined result, missing effects, missing
created or events fields, and events lacking any of the expected
sub-fields. -/
theorem extract_total_on_object_elements :
    ∀ r : Option TxResult, elemsNonNull r = true →
      ∃ ids, extractObjectIdsFromResult r = Except.ok ids := by
  intro r h
  simp only [elemsNonNull, Bool.and_eq_true] at h
  obtain ⟨hcr, hev⟩ := h
  simp only [extractObjectIdsFromResult]
  by_cases hlen : 0 < createdLenJS r
  · rw [if_pos hlen]
    exact mapOrThrow_ok_of_all_isSome _ _ hcr
  · rw [if_neg hlen]
    cases he : eventsField r with
    | none => exact ⟨[], rfl⟩
    | some evs =>
      have hall : evs.all Option.isSome = true := by simpa [he] using hev
      obtain ⟨l2, hl2⟩ := mapOrThrow_ok_of_all_isSome (fun e => e) evs hall
      exact ⟨((l2.filter eventMatches).map
          (fun ev => jsOrStr ev.objectId (ev.newObject.bind NewObj.objectId))).filter
            strTruthy,
        by simp only [hl2]⟩

/-- C9 witness: an event whose only populated field is newObject, inside an
otherwise sparse result. -/
theorem extract_total_on_object_elements_witness :
    ∃ ids, extractObjectIdsFromResult
        (some ⟨some ⟨none, some [some ⟨none, some ⟨some "0xn"⟩, none, none⟩]⟩⟩)
      = Except.ok ids :=
  extract_total_on_object_elements _ rfl

/-- C3: the balance refresh claimed after a successful transaction never
happens in this file — fetchBalance is declared inside the useEffect
callback, which is not on the scope chain of the onSuccess callback, so
line 143 throws a ReferenceError after the two setState calls; the
refreshed flag of the trace is always false. -/
theorem onSuccess_no_balance_refresh :
    lookupInScope onSuccessScopeChain "fetchBalance" = false
    ∧ "fetchBalance" ∈ useEffectCallbackScopeNames
    ∧ ∀ (reqs : List LinkReq) (errBefore : String) (r : Option TxResult),
        onSuccessMain reqs errBefore r
          = (extractObjectIdsFromResult r).map fun ids =>
              { warned := ids.isEmpty, newTracked := ids,
                newLinks := displayLinksOf reqs, errorAfter := errBefore,
                refreshed := false, thrown := some JsError.referenceError } := by
  have hlk : lookupInScope onSuccessScopeChain "fetchBalance" = false := by decide
  refine ⟨hlk, by decide, ?_⟩
  intro reqs errBefore r
  simp only [onSuccessMain, hlk]
  cases extractObjectIdsFromResult r with
  | error e => rfl
  | ok ids => simp [Except.map]

/-- C8: for every non-empty list of generated links, the download payload is
the newline-join of one line per link, pairing the link positionally with
its tracked id rendered as "N/A" when missing, and the download file name
embeds the date part of the current ISO timestamp. -/
theorem download_pairs_positionally :
    ∀ (links : List String) (ids : List (Option String)) (isoNow : String),
      links ≠ [] →
      downloadData links ids
        = String.intercalate "\n"
            ((List.range links.length).map fun i =>
              "Link: " ++ links.getD i "" ++ "\nObject ID: " ++ renderId ids i ++ "\n")
      ∧ strIncludes (mkDownloadName isoNow) ((isoNow.splitOn "T").headD "") = true := by
  intro links ids isoNow hne
  constructor
  · unfold downloadData
    rw [jsMapIndexed_eq_range_map (downloadLine ids) "" links 0]
    simp only [downloadLine, Nat.zero_add]
  · have h2 : (mkDownloadName isoNow).toList
        = "getstashed_links_".toList
            ++ (((isoNow.splitOn "T").headD "").toList ++ ".txt".toList) :=
      calc (mkDownloadName isoNow).toList
          = ("getstashed_links_".toList ++ ((isoNow.splitOn "T").headD "").toList)
              ++ ".txt".toList := rfl
        _ = _ := List.append_assoc _ _ _
    unfold strIncludes
    rw [h2]
    exact listHasSub_mid _ _ _

/-- C8 witness: one link and no tracked ids, on a fixed date. -/
theorem download_pairs_positionally_witness :
    downloadData ["https://getstashed.com/a"] []
      = String.intercalate "\n"
          ((List.range (["https://getstashed.com/a"] : List String).length).map fun i =>
            "Link: " ++ (["https://getstashed.com/a"] : List String).getD i ""
              ++ "\nObject ID: " ++ renderId [] i ++ "\n")
    ∧ strIncludes (mkDownloadName "2026-10-11T00:00:00.000Z")
        (("2026-10-11T00:00:00.000Z".splitOn "T").headD "") = true :=
  download_pairs_positionally ["https://getstashed.com/a"] [] "2026-10-11T00:00:00.000Z"
    (by simp)

/-- C10: after a successful submission the number of displayed links equals
the number of built requests, which equals the stored link count — whatever
the transaction result contained; positions beyond the extracted ids render
as "N/A", and an extracted empty-string id also renders as "N/A". -/
theorem success_link_counts_agree :
    ∀ (urlOf : ℕ → String) (a : String) (s : ComponentState) (reqs : List LinkReq)
      (errBefore : String) (r : Option TxResult) (tr : OnSuccessTrace),
      (createLinks urlOf (some a) s).2 = some reqs →
      onSuccessMain reqs errBefore r = Except.ok tr →
        tr.newLinks.length = reqs.length
        ∧ reqs.length = s.numLinks.toNat
        ∧ (∀ i : ℕ, tr.newTracked.length ≤ i → renderId tr.newTracked i = "N/A")
        ∧ (∀ i : ℕ, tr.newTracked.getD i none = some "" → renderId tr.newTracked i = "N/A") := by
  intro urlOf a s reqs errBefore r tr h1 h2
  have hlen : reqs.length = s.numLinks.toNat := by
    simp only [createLinks] at h1
    split at h1
    · simp at h1
    · simp only [Option.some.injEq] at h1
      rw [← h1]
      simp [List.length_map, List.length_range]
  have hlinks : tr.newLinks = displayLinksOf reqs := by
    simp only [onSuccessMain] at h2
    cases hx : extractObjectIdsFromResult r with
    | error e => rw [hx] at h2; cases h2
    | ok ids =>
      rw [hx] at h2
      simp only [Except.ok.injEq] at h2
      rw [← h2]
  refine ⟨?_, hlen, ?_, ?_⟩
  · rw [hlinks]
    simp [displayLinksOf]
  · intro i hi
    unfold renderId
    rw [List.getD_eq_default _ _ hi]
  · intro i hi
    unfold renderId
    rw [hi]
    rfl

/-- C10 witness: one submitted link, a null transaction result (no ids
extracted), display link still produced. -/
theorem success_link_counts_agree_witness :
    (["https://getstashed.com/a"] : List String).length
        = ([{ mist := 1000000000, url := "https://zksend.com/a" }] : List LinkReq).length
    ∧ ([{ mist := 1000000000, url := "https://zksend.com/a" }] : List LinkReq).length
        = (1 : ℤ).toNat
    ∧ (∀ i : ℕ, ([] : List (Option String)).length ≤ i → renderId [] i = "N/A")
    ∧ (∀ i : ℕ, ([] : List (Option String)).getD i none = some "" →
        renderId [] i = "N/A") :=
  success_link_counts_agree (fun _ => "https://zksend.com/a") "0xabc"
    { numLinks := 1, amountPerLink := 1, generatedLinks := [],
      trackedObjectIds := [], isLoading := false, error := "",
      balanceInMist := 10000000000 }
    [{ mist := 1000000000, url := "https://zksend.com/a" }] "" none
    { warned := true, newTracked := [], newLinks := ["https://getstashed.com/a"],
      errorAfter := "", refreshed := false, thrown := some JsError.referenceError }
    (by
      simp only [createLinks]
      rw [if_neg (by with_unfolding_all decide)]
      show some ((List.range (1 : ℤ).toNat).map fun i =>
        ({ mist := convertSUIToMist 1, url := "https://zksend.com/a" } : LinkReq)) = _
      have hm : convertSUIToMist 1 = 1000000000 := by with_unfolding_all decide
      rw [hm]
      rfl)
    rfl
